import Mathlib

/-
Verification of the gdsfactory notebook sources: the generic layer map, the
all-pass ring frequency response, and models of the cell decorator, database
schema, gmsh meshing interface and component naming described by the
documentation.
-/

namespace GdsFactory

/-- The `GenericLayerMap` pydantic model from `docs/notebooks/03_layer_stack.ipynb`:
a static table of layer names, each mapped to a `(GDSlayer, GDSpurpose)` pair of
integers given as the field's default value. -/
structure GenericLayerMap where
  WAFER : Nat × Nat := (99999, 0)
  WG : Nat × Nat := (1, 0)
  WGCLAD : Nat × Nat := (111, 0)
  SLAB150 : Nat × Nat := (2, 0)
  SLAB90 : Nat × Nat := (3, 0)
  DEEPTRENCH : Nat × Nat := (4, 0)
  GE : Nat × Nat := (5, 0)
  UNDERCUT : Nat × Nat := (6, 0)
  WGN : Nat × Nat := (34, 0)
  WGN_CLAD : Nat × Nat := (36, 0)
  N : Nat × Nat := (20, 0)
  NP : Nat × Nat := (22, 0)
  NPP : Nat × Nat := (24, 0)
  P : Nat × Nat := (21, 0)
  PP : Nat × Nat := (23, 0)
  PPP : Nat × Nat := (25, 0)
  GEN : Nat × Nat := (26, 0)
  GEP : Nat × Nat := (27, 0)
  HEATER : Nat × Nat := (47, 0)
  M1 : Nat × Nat := (41, 0)
  M2 : Nat × Nat := (45, 0)
  M3 : Nat × Nat := (49, 0)
  VIAC : Nat × Nat := (40, 0)
  VIA1 : Nat × Nat := (44, 0)
  VIA2 : Nat × Nat := (43, 0)
  PADOPEN : Nat × Nat := (46, 0)
  DICING : Nat × Nat := (100, 0)
  NO_TILE_SI : Nat × Nat := (71, 0)
  PADDING : Nat × Nat := (67, 0)
  DEVREC : Nat × Nat := (68, 0)
  FLOORPLAN : Nat × Nat := (64, 0)
  TEXT : Nat × Nat := (66, 0)
  PORT : Nat × Nat := (1, 10)
  PORTE : Nat × Nat := (1, 11)
  PORTH : Nat × Nat := (70, 0)
  SHOW_PORTS : Nat × Nat := (1, 12)
  LABEL : Nat × Nat := (201, 0)
  LABEL_SETTINGS : Nat × Nat := (202, 0)
  TE : Nat × Nat := (203, 0)
  TM : Nat × Nat := (204, 0)
  DRC_MARKER : Nat × Nat := (205, 0)
  LABEL_INSTANCE : Nat × Nat := (206, 0)
  ERROR_MARKER : Nat × Nat := (207, 0)
  ERROR_PATH : Nat × Nat := (208, 0)
  SOURCE : Nat × Nat := (110, 0)
  MONITOR : Nat × Nat := (101, 0)
deriving DecidableEq

/-- `LAYER = GenericLayerMap()` from the same notebook: the instance holding all
default values. -/
def LAYER : GenericLayerMap := {}

/-- `neff + (wl0 - wl) * (ng - neff) / wl0` — the linear dispersion of the
effective index with wavelength, from `ring` in
`docs/notebooks/workflow/2_ring.ipynb`. -/
noncomputable def neff_wl (wl wl0 neff ng : ℝ) : ℝ :=
  neff + (wl0 - wl) * (ng - neff) / wl0

/-- `10 ** (-loss * ring_length / 20.0)` — the round-trip amplitude factor in
`ring`. -/
noncomputable def ring_amplitude (loss ring_length : ℝ) : ℝ :=
  (10 : ℝ) ^ (-loss * ring_length / 20)

/-- `np.exp(2j * np.pi * neff_wl * ring_length / wl)` — the round-trip phase
factor in `ring`. -/
noncomputable def ring_phase (wl wl0 neff ng ring_length : ℝ) : ℂ :=
  Complex.exp ((2 * Real.pi * neff_wl wl wl0 neff ng * ring_length / wl : ℝ) * Complex.I)

/-- The frequency-domain response of the all-pass ring filter from
`docs/notebooks/workflow/2_ring.ipynb`, in exact real arithmetic:
`transmission = 1 - coupling`, then
`out = (sqrt(transmission) - A e^{iθ}) / (1 - sqrt(transmission) A e^{iθ})`
with `A` the loss amplitude and `θ` the round-trip phase, returning
`abs(out) ** 2`. -/
noncomputable def ring (wl wl0 neff ng ring_length coupling loss : ℝ) : ℝ :=
  Complex.abs
    ((((Real.sqrt (1 - coupling) : ℝ) : ℂ) -
        ((ring_amplitude loss ring_length : ℝ) : ℂ) * ring_phase wl wl0 neff ng ring_length) /
      (1 - ((Real.sqrt (1 - coupling) : ℝ) : ℂ) *
        ((ring_amplitude loss ring_length : ℝ) : ℂ) * ring_phase wl wl0 neff ng ring_length)) ^ 2

/-- Modelled from the spec: the implementation of the `@gf.cell` decorator is
not included under `src/` (the notebooks only document and call it). Per the
spec it is "a component-caching/auto-naming decorator built on a hashing of
call parameters" that "names cells deterministically and uniquely based on the
name of the functions and its parameters". A cell name is modelled as the
function name together with the canonical ordered list of parameter names and
values, which the decorator renders injectively into the GDS cell name. -/
structure CellKey where
  function_name : String
  params : List (String × Int)
deriving DecidableEq

/-- Modelled from the spec: a component produced by a decorated cell function;
`build_id` identifies the concrete build, i.e. which run of the function body
created the component. -/
structure CellComponent where
  name : CellKey
  build_id : Nat
deriving DecidableEq

/-- Modelled from the spec: the decorator's "cache of components where we use
the name as the key", together with a counter of function-body runs and a
supply of build identities. -/
structure CellCache where
  cache : List (CellKey × CellComponent)
  next_build : Nat
  body_runs : Nat
deriving DecidableEq

/-- Lookup in the decorator cache by cell name. -/
def cacheLookup (k : CellKey) : List (CellKey × CellComponent) → Option CellComponent
  | [] => none
  | (k', c) :: rest => if k' = k then some c else cacheLookup k rest

/-- Modelled from the spec: one call of a decorated cell function. "The first
time the function runs, the cache stores the component, so the second time,
you get the component directly from the cache, so you don't create the same
component twice." -/
def call_cell (function_name : String) (params : List (String × Int))
    (st : CellCache) : CellComponent × CellCache :=
  let key : CellKey := ⟨function_name, params⟩
  match cacheLookup key st.cache with
  | some c => (c, st)
  | none =>
      let c : CellComponent := ⟨key, st.next_build⟩
      (c, ⟨(key, c) :: st.cache, st.next_build + 1, st.body_runs + 1⟩)

/-- A decorator cache state is well formed when every cached component is
stored under its own name. This holds for the empty cache and is preserved by
`call_cell`. -/
def CellCache.WF (st : CellCache) : Prop :=
  ∀ k c, (k, c) ∈ st.cache → c.name = k

/-- Modelled from the spec: the `gdsfactory.database` SQLAlchemy ORM model
definitions are not under `src/` (the notebook only imports and uses them).
Per the spec they form "a relational-database schema (SQLAlchemy ORM models)
for storing wafer/reticle/die/component/simulation metadata"; the notebook
constructs `Wafer(name, serial_number)`, `Reticle(name, wafer_id, wafer)`,
`Die(name, reticle_id, reticle)`, `Component(name, die_id, die)`,
`Port(component, component_id, port_type, name, orientation, position)`,
`ComponentInfo(component, component_id, name, value)` and
`SParameterResults(array, n_ports)`. Rows are modelled as stored in SQL, with
the foreign-key id column; the ORM relationship attribute is modelled by the
lookup functions below. -/
structure WaferRow where
  id : Nat
  name : String
  serial_number : String
deriving DecidableEq

/-- Modelled from the spec: a `Reticle` row; `wafer_id` is the foreign key to
its parent `Wafer`. -/
structure ReticleRow where
  id : Nat
  name : String
  wafer_id : Nat
deriving DecidableEq

/-- Modelled from the spec: a `Die` row; `reticle_id` is the foreign key to
its parent `Reticle`. -/
structure DieRow where
  id : Nat
  name : String
  reticle_id : Nat
deriving DecidableEq

/-- Modelled from the spec: a `Component` row; `die_id` is the foreign key to
its parent `Die`. -/
structure ComponentRow where
  id : Nat
  name : String
  die_id : Nat
deriving DecidableEq

/-- Modelled from the spec: a `Port` row; `component_id` is the foreign key to
its parent `Component`. -/
structure PortRow where
  id : Nat
  name : String
  port_type : String
  orientation : Int
  position : Int × Int
  component_id : Nat
deriving DecidableEq

/-- Modelled from the spec: a `ComponentInfo` row; `component_id` is the
foreign key to its parent `Component`. -/
structure ComponentInfoRow where
  id : Nat
  name : String
  value : String
  component_id : Nat
deriving DecidableEq

/-- Modelled from the spec: an `SParameterResults` row storing a JSON array of
simulation results; it has no parent in the hierarchy. -/
structure SParameterResultsRow where
  id : Nat
  array : List (String × Int)
  n_ports : Nat
deriving DecidableEq

/-- Modelled from the spec: the database, one table per ORM model. -/
structure Database where
  wafers : List WaferRow
  reticles : List ReticleRow
  dies : List DieRow
  components : List ComponentRow
  ports : List PortRow
  component_infos : List ComponentInfoRow
  s_parameter_results : List SParameterResultsRow
deriving DecidableEq

/-- Resolution of a wafer foreign key (a `wafer` relationship attribute). -/
def Database.find_wafer (db : Database) (id : Nat) : Option WaferRow :=
  db.wafers.find? (fun w => w.id == id)

/-- Resolution of a reticle foreign key (a `reticle` relationship attribute). -/
def Database.find_reticle (db : Database) (id : Nat) : Option ReticleRow :=
  db.reticles.find? (fun r => r.id == id)

/-- Resolution of a die foreign key (a `die` relationship attribute). -/
def Database.find_die (db : Database) (id : Nat) : Option DieRow :=
  db.dies.find? (fun d => d.id == id)

/-- Resolution of a component foreign key (a `component` relationship
attribute). -/
def Database.find_component (db : Database) (id : Nat) : Option ComponentRow :=
  db.components.find? (fun c => c.id == id)

/-- The relationship chain from a port row up through the hierarchy:
`port.component.die.reticle.wafer`. -/
def Database.port_wafer (db : Database) (p : PortRow) : Option WaferRow :=
  (db.find_component p.component_id).bind fun c =>
    (db.find_die c.die_id).bind fun d =>
      (db.find_reticle d.reticle_id).bind fun r =>
        db.find_wafer r.wafer_id

/-- The relationship chain from a component-info row up through the hierarchy:
`component_info.component.die.reticle.wafer`. -/
def Database.info_wafer (db : Database) (i : ComponentInfoRow) : Option WaferRow :=
  (db.find_component i.component_id).bind fun c =>
    (db.find_die c.die_id).bind fun d =>
      (db.find_reticle d.reticle_id).bind fun r =>
        db.find_wafer r.wafer_id

/-- Referential integrity of the schema's foreign keys: every reticle
references an existing wafer, every die an existing reticle, every component
an existing die, and every port and component info an existing component. -/
def Database.WF (db : Database) : Prop :=
  (∀ r ∈ db.reticles, ∃ w ∈ db.wafers, w.id = r.wafer_id) ∧
  (∀ d ∈ db.dies, ∃ r ∈ db.reticles, r.id = d.reticle_id) ∧
  (∀ c ∈ db.components, ∃ d ∈ db.dies, d.id = c.die_id) ∧
  (∀ p ∈ db.ports, ∃ c ∈ db.components, c.id = p.component_id) ∧
  (∀ i ∈ db.component_infos, ∃ c ∈ db.components, c.id = i.component_id)

/-- The example database built in the database notebook: wafer "12" with
serial "ABC", reticle "sky1" on it, die "d00" on the reticle, a ring component
on the die with one port and one settings entry, and an s-parameter result. -/
def exampleDb : Database where
  wafers := [⟨1, "12", "ABC"⟩]
  reticles := [⟨1, "sky1", 1⟩]
  dies := [⟨1, "d00", 1⟩]
  components := [⟨1, "ring_single", 1⟩]
  ports := [⟨1, "o1", "optical", 180, (0, 0), 1⟩]
  component_infos := [⟨1, "radius", "10", 1⟩]
  s_parameter_results := [⟨1, [("wavelengths", 2)], 1⟩]

/-- Modelled from the spec: the gmsh meshing wrapper (`Component.to_gmsh` and
`gdsfactory.simulation.gmsh`) is not under `src/`; the meshing notebook states
that "the mesh is returned tagged with LayerStack `label` for each GDS layer
according to a specific `mesh_order`" — the `info` dict's `mesh_order`
"determines which layer will appear in the mesh if layers overlap" — and that
"all interfaces between layer entities are also tagged as `label1___label2`".
A layer of the stack is modelled by its label, its `mesh_order` (lower order
takes priority at overlaps, as in the generic stack where the core has order 1
and the cladding order 10), and the set of mesh points covered by its
post-processed GDS region. -/
structure MeshLayer where
  label : String
  mesh_order : Nat
  covers : Int × Int → Bool

/-- One step of selecting the governing layer: a candidate replaces the best
layer so far when its `mesh_order` is strictly lower. -/
def governing : Option MeshLayer → MeshLayer → Option MeshLayer
  | none, l => some l
  | some b, l => if l.mesh_order < b.mesh_order then some l else some b

/-- The layer governing a point: among the stack's layers covering the point,
one with the lowest `mesh_order` (the earliest such layer when orders tie). -/
def mesh_governing_layer (layers : List MeshLayer) (p : Int × Int) :
    Option MeshLayer :=
  (layers.filter (fun l => l.covers p)).foldl governing none

/-- The LayerStack label tagging the mesh entity at a point. -/
def mesh_label (layers : List MeshLayer) (p : Int × Int) : Option String :=
  (mesh_governing_layer layers p).map (fun l => l.label)

/-- The tag of the interface between two labelled layer entities. -/
def interface_tag (label1 label2 : String) : String :=
  label1 ++ "___" ++ label2

/-- The tag of the interface between the mesh entities at two adjacent points:
when both carry labels and the labels differ, the interface between the two
layer entities is tagged `label1___label2`. -/
def mesh_interface (layers : List MeshLayer) (p q : Int × Int) : Option String :=
  match mesh_label layers p, mesh_label layers q with
  | some a, some b => if a = b then none else some (interface_tag a b)
  | _, _ => none

/-- A two-layer demonstration stack: a "core" region with mesh order 1 inside
a "clad" background with mesh order 10. -/
def demo_core : MeshLayer := ⟨"core", 1, fun r => decide (r.1 ≤ 0)⟩

/-- The background layer of the demonstration stack. -/
def demo_clad : MeshLayer := ⟨"clad", 10, fun _ => true⟩

/-- The demonstration stack. -/
def demo_layers : List MeshLayer := [demo_core, demo_clad]

/-- Modelled from the spec: `gf.Component` internals are not under `src/`.
The common-mistakes notebook documents that naming cells manually "is
susceptible to name collisions; in GDS you can't have two cells with the same
name", and that inserting references to two components both created with the
same explicit name but different contents "will raise a duplicated cell name
ValueError". A manually named component is modelled by its name and its
geometry content. -/
structure NamedComponent where
  name : String
  content : Nat
deriving DecidableEq

/-- Modelled from the spec: inserting a reference to a component into a
parent's cell table (the `<<` operator): the referenced cell is stored keyed
by its name; inserting a different cell under an already used name raises the
duplicated cell name ValueError. -/
def insert_reference (cells : List NamedComponent) (c : NamedComponent) :
    Except String (List NamedComponent) :=
  match cells.find? (fun c0 => c0.name == c.name) with
  | some c0 => if c0 = c then .ok cells else .error "Duplicated cell name"
  | none => .ok (c :: cells)

/-- Modelled from the spec: a GDS cell name is either a manual name or an
automatic uuid-based one; per the notebook, components created without an
explicit name "get unique names thanks to the unique identifier uuid",
different and non-deterministic across invocations of the script. The uuid
source of one invocation is modelled as a supply of fresh identifiers. -/
inductive GdsName
  | manual (s : String)
  | unnamed (uuid : Nat)
deriving DecidableEq

/-- A component as named at creation time. -/
structure UnnamedComponent where
  name : GdsName
deriving DecidableEq

/-- Modelled from the spec: `gf.Component()` with no explicit name draws a
fresh uuid from the supply. -/
def new_unnamed (supply : Nat) : UnnamedComponent × Nat :=
  (⟨.unnamed supply⟩, supply + 1)

/-- Creating `n` components without explicit names, in one invocation. -/
def new_unnamed_run : Nat → Nat → List UnnamedComponent
  | 0, _ => []
  | n + 1, supply =>
      (new_unnamed supply).1 :: new_unnamed_run n (new_unnamed supply).2

/-- The outcome of `write_gds`: whether a Warning was raised and whether the
GDS file was written. -/
structure WriteGdsResult where
  warned : Bool
  gds_written : Bool
deriving DecidableEq

/-- Modelled from the spec: `write_gds` "raises a Warning when you save this
Unnamed Component" but still writes the GDS file. -/
def write_gds (c : UnnamedComponent) : WriteGdsResult :=
  match c.name with
  | .unnamed _ => ⟨true, true⟩
  | .manual _ => ⟨false, true⟩

end GdsFactory

namespace GdsFactory

/-- A successful cache lookup returns an entry of the cache. -/
theorem cacheLookup_mem (k : CellKey) (c : CellComponent) :
    ∀ l : List (CellKey × CellComponent), cacheLookup k l = some c → (k, c) ∈ l := by
  intro l
  induction l with
  | nil => intro h; exact absurd h (by simp [cacheLookup])
  | cons p rest ih =>
      obtain ⟨k', c'⟩ := p
      intro h
      by_cases hk : k' = k
      · subst hk
        simp only [cacheLookup, if_pos rfl] at h
        cases h
        exact List.mem_cons_self _ _
      · simp only [cacheLookup, if_neg hk] at h
        exact List.mem_cons_of_mem _ (ih h)

/-- In a well-formed cache state, a decorated call returns a component whose
name is exactly the pair of the function name and the parameters. -/
theorem call_cell_name (function_name : String) (params : List (String × Int))
    (st : CellCache) (hwf : st.WF) :
    ((call_cell function_name params st).1).name = ⟨function_name, params⟩ := by
  simp only [call_cell]
  cases h : cacheLookup ⟨function_name, params⟩ st.cache with
  | none => simp [h]
  | some c =>
      simp only [h]
      exact hwf _ _ (cacheLookup_mem _ _ _ h)

/-- C5: the claimed layer map values, checked against the `GenericLayerMap`
defaults. The documented table's `UNDERCUT = (51, 0)` disagrees with the code
(`(6, 0)`), refuted below; all other claimed pairs hold, with the heater layer
stored under the attribute `HEATER`. -/
theorem LAYER_UNDERCUT_eq : LAYER.UNDERCUT = (6, 0) := rfl

/-- C5 counterexample: the claim takes `UNDERCUT = (51, 0)` from the
documented markdown table, but the `GenericLayerMap` code in the same notebook
defines `UNDERCUT = (6, 0)`; the map also has no `MH` attribute — the `(47, 0)`
heater layer is the attribute named `HEATER`. -/
theorem generic_layer_map_undercut_ne_table : LAYER.UNDERCUT ≠ (51, 0) := by
  decide

/-- C5 (amended): the generic layer map is a static data table whose defaults
give `WG = (1,0)`, `SLAB150 = (2,0)`, `SLAB90 = (3,0)`, `DEEPTRENCH = (4,0)`,
`HEATER = (47,0)` (the heater layer, which the documented table calls MH),
`M1 = (41,0)`, `M2 = (45,0)`, `VIAC = (40,0)`, `VIA1 = (44,0)`,
`PADOPEN = (46,0)`, `UNDERCUT = (6,0)` (the documented table says `(51,0)`),
`TEXT = (66,0)` and `FLOORPLAN = (64,0)`. -/
theorem generic_layer_map_values :
    LAYER.WG = (1, 0) ∧ LAYER.SLAB150 = (2, 0) ∧ LAYER.SLAB90 = (3, 0) ∧
    LAYER.DEEPTRENCH = (4, 0) ∧ LAYER.HEATER = (47, 0) ∧ LAYER.M1 = (41, 0) ∧
    LAYER.M2 = (45, 0) ∧ LAYER.VIAC = (40, 0) ∧ LAYER.VIA1 = (44, 0) ∧
    LAYER.PADOPEN = (46, 0) ∧ LAYER.UNDERCUT = (6, 0) ∧ LAYER.TEXT = (66, 0) ∧
    LAYER.FLOORPLAN = (64, 0) := by
  refine ⟨rfl, rfl, rfl, rfl, rfl, rfl, rfl, rfl, rfl, rfl, rfl, rfl, rfl⟩

/-- C1: for a function decorated with `@gf.cell`, the name of the returned
component is a deterministic function of the decorated function's name and of
the parameters passed: two calls with equal parameter values, in the same or
in different runs (modelled as arbitrary well-formed cache states), produce
components with the same name. -/
theorem cell_name_deterministic (function_name : String)
    (params : List (String × Int)) (st1 st2 : CellCache)
    (h1 : st1.WF) (h2 : st2.WF) :
    ((call_cell function_name params st1).1).name =
      ((call_cell function_name params st2).1).name := by
  rw [call_cell_name function_name params st1 h1,
    call_cell_name function_name params st2 h2]

/-- C1 witness: the determinism theorem instantiated at the notebook's
`wg(length=3)` call, starting from two empty (hence well-formed) caches. -/
theorem cell_name_deterministic_witness :
    ((call_cell "wg" [("length", 3)] ⟨[], 0, 0⟩).1).name =
      ((call_cell "wg" [("length", 3)] ⟨[], 0, 0⟩).1).name :=
  cell_name_deterministic "wg" [("length", 3)] ⟨[], 0, 0⟩ ⟨[], 0, 0⟩
    (fun _ _ h => absurd h (List.not_mem_nil _))
    (fun _ _ h => absurd h (List.not_mem_nil _))

/-- C2: when the cell name is not yet cached, a decorated call runs the
function body once (the body-run counter increases by one) and stores the
returned component in the cache keyed by that component's name; a later call
with the same parameters then returns exactly that cached component and leaves
the whole state unchanged, so the function body is not run again and the same
component is never created twice. -/
theorem cell_cache_spec (function_name : String) (params : List (String × Int))
    (st : CellCache)
    (hfresh : cacheLookup ⟨function_name, params⟩ st.cache = none) :
    cacheLookup ⟨function_name, params⟩
        (call_cell function_name params st).2.cache =
      some (call_cell function_name params st).1 ∧
    (call_cell function_name params st).2.body_runs = st.body_runs + 1 ∧
    call_cell function_name params (call_cell function_name params st).2 =
      ((call_cell function_name params st).1,
        (call_cell function_name params st).2) := by
  refine ⟨?_, ?_, ?_⟩
  · simp [call_cell, hfresh, cacheLookup]
  · simp [call_cell, hfresh]
  · simp [call_cell, hfresh, cacheLookup]

/-- C2 witness: the caching theorem instantiated at the notebook's
`wg(length=3)` call on the empty cache. -/
theorem cell_cache_spec_witness :
    cacheLookup ⟨"wg", [("length", 3)]⟩
        (call_cell "wg" [("length", 3)] ⟨[], 0, 0⟩).2.cache =
      some (call_cell "wg" [("length", 3)] ⟨[], 0, 0⟩).1 ∧
    (call_cell "wg" [("length", 3)] ⟨[], 0, 0⟩).2.body_runs = 0 + 1 ∧
    call_cell "wg" [("length", 3)] (call_cell "wg" [("length", 3)] ⟨[], 0, 0⟩).2 =
      ((call_cell "wg" [("length", 3)] ⟨[], 0, 0⟩).1,
        (call_cell "wg" [("length", 3)] ⟨[], 0, 0⟩).2) :=
  cell_cache_spec "wg" [("length", 3)] ⟨[], 0, 0⟩ rfl

/-- C3: two decorated calls with different parameter values, or calls to two
different decorated functions, produce components with different names, in any
well-formed cache states (same or different runs). -/
theorem cell_names_unique (fn fn' : String) (ps ps' : List (String × Int))
    (st st' : CellCache) (hwf : st.WF) (hwf' : st'.WF)
    (hne : fn ≠ fn' ∨ ps ≠ ps') :
    ((call_cell fn ps st).1).name ≠ ((call_cell fn' ps' st').1).name := by
  rw [call_cell_name fn ps st hwf, call_cell_name fn' ps' st' hwf']
  intro h
  injection h with h1 h2
  rcases hne with h' | h'
  · exact h' h1
  · exact h' h2

/-- C3 witness: the notebook's `wg(length=5)` and `wg(length=50)` calls get
different names, starting from empty caches. -/
theorem cell_names_unique_witness :
    ((call_cell "wg" [("length", 5)] ⟨[], 0, 0⟩).1).name ≠
      ((call_cell "wg" [("length", 50)] ⟨[], 0, 0⟩).1).name :=
  cell_names_unique "wg" "wg" [("length", 5)] [("length", 50)] ⟨[], 0, 0⟩ ⟨[], 0, 0⟩
    (fun _ _ h => absurd h (List.not_mem_nil _))
    (fun _ _ h => absurd h (List.not_mem_nil _))
    (Or.inr (by decide))

/-- The fold selecting the governing layer, started at a candidate `b`,
returns either `b` or a list element, with a `mesh_order` that is minimal
among `b` and the list. -/
theorem foldl_governing_some (fl : List MeshLayer) :
    ∀ b m, fl.foldl governing (some b) = some m →
      (m = b ∨ m ∈ fl) ∧ m.mesh_order ≤ b.mesh_order ∧
        ∀ x ∈ fl, m.mesh_order ≤ x.mesh_order := by
  induction fl with
  | nil =>
      intro b m h
      simp only [List.foldl_nil, Option.some.injEq] at h
      refine ⟨Or.inl h.symm, by rw [h], ?_⟩
      intro x hx
      exact absurd hx (List.not_mem_nil _)
  | cons l fl ih =>
      intro b m h
      simp only [List.foldl_cons, governing] at h
      by_cases hlt : l.mesh_order < b.mesh_order
      · rw [if_pos hlt] at h
        obtain ⟨hm, hle, hall⟩ := ih l m h
        refine ⟨?_, le_trans hle (le_of_lt hlt), ?_⟩
        · rcases hm with h1 | h2
          · exact Or.inr (by rw [h1]; exact List.mem_cons_self _ _)
          · exact Or.inr (List.mem_cons_of_mem _ h2)
        · intro x hx
          rcases List.mem_cons.mp hx with h1 | h2
          · rw [h1]; exact hle
          · exact hall x h2
      · rw [if_neg hlt] at h
        obtain ⟨hm, hle, hall⟩ := ih b m h
        refine ⟨?_, hle, ?_⟩
        · rcases hm with h1 | h2
          · exact Or.inl h1
          · exact Or.inr (List.mem_cons_of_mem _ h2)
        · intro x hx
          rcases List.mem_cons.mp hx with h1 | h2
          · rw [h1]; exact le_trans hle (not_lt.mp hlt)
          · exact hall x h2

/-- The fold selecting the governing layer, started at a candidate, always
returns a layer. -/
theorem foldl_governing_isSome (fl : List MeshLayer) :
    ∀ b, ∃ m, fl.foldl governing (some b) = some m := by
  induction fl with
  | nil => intro b; exact ⟨b, rfl⟩
  | cons l fl ih =>
      intro b
      simp only [List.foldl_cons, governing]
      by_cases hlt : l.mesh_order < b.mesh_order
      · rw [if_pos hlt]; exact ih l
      · rw [if_neg hlt]; exact ih b

/-- The governing layer of a point is one of the stack's layers and covers the
point. -/
theorem mesh_governing_layer_mem (layers : List MeshLayer) (r : Int × Int)
    (m : MeshLayer) (h : mesh_governing_layer layers r = some m) :
    m ∈ layers ∧ m.covers r = true := by
  unfold mesh_governing_layer at h
  cases hl : layers.filter (fun l => l.covers r) with
  | nil => rw [hl] at h; simp at h
  | cons l fl =>
      rw [hl] at h
      simp only [List.foldl_cons, governing] at h
      obtain ⟨hm, _, _⟩ := foldl_governing_some fl l m h
      have hmem : m ∈ layers.filter (fun l => l.covers r) := by
        rw [hl]
        rcases hm with h1 | h2
        · rw [h1]; exact List.mem_cons_self _ _
        · exact List.mem_cons_of_mem _ h2
      have hmem' := List.mem_filter.mp hmem
      exact ⟨hmem'.1, by simpa using hmem'.2⟩

/-- When a layer covering a point has strictly the lowest `mesh_order` among
the covering layers, it is the governing layer and supplies the mesh label. -/
theorem mesh_label_governing (layers : List MeshLayer) (p : Int × Int)
    (ℓ : MeshLayer) (hmem : ℓ ∈ layers) (hcov : ℓ.covers p = true)
    (hgov : ∀ m ∈ layers, m.covers p = true → m ≠ ℓ →
      ℓ.mesh_order < m.mesh_order) :
    mesh_label layers p = some ℓ.label := by
  have hflmem : ℓ ∈ layers.filter (fun l => l.covers p) :=
    List.mem_filter.mpr ⟨hmem, by simpa using hcov⟩
  unfold mesh_label mesh_governing_layer
  cases hl : layers.filter (fun l => l.covers p) with
  | nil => rw [hl] at hflmem; exact absurd hflmem (List.not_mem_nil _)
  | cons l fl =>
      simp only [List.foldl_cons, governing]
      obtain ⟨m, hm⟩ := foldl_governing_isSome fl l
      rw [hm]
      obtain ⟨hmm, hle, hall⟩ := foldl_governing_some fl l m hm
      have hmfl : m ∈ l :: fl := by
        rcases hmm with h1 | h2
        · rw [h1]; exact List.mem_cons_self _ _
        · exact List.mem_cons_of_mem _ h2
      have hm_layers : m ∈ layers ∧ m.covers p = true := by
        rw [← hl] at hmfl
        have h' := List.mem_filter.mp hmfl
        exact ⟨h'.1, by simpa using h'.2⟩
      have hminl : m.mesh_order ≤ ℓ.mesh_order := by
        rw [hl] at hflmem
        rcases List.mem_cons.mp hflmem with h1 | h2
        · rw [h1]; exact hle
        · exact hall ℓ h2
      have hml : m = ℓ := by
        by_contra hne
        exact absurd hminl (not_le.mpr (hgov m hm_layers.1 hm_layers.2 hne))
      simp [hml]

/-- The interface between two differently labelled entities carries the
concatenated tag. -/
theorem mesh_interface_eq (layers : List MeshLayer) (p q : Int × Int)
    (a b : String) (ha : mesh_label layers p = some a)
    (hb : mesh_label layers q = some b) (hne : a ≠ b) :
    mesh_interface layers p q = some (interface_tag a b) := by
  unfold mesh_interface
  rw [ha, hb]
  simp [hne]

/-- C7: for a component meshed against a layer stack, (i) the mesh entity at a
point whose covering layer has strictly the governing (lowest) `mesh_order`
among the overlapping layers is tagged with that layer's LayerStack label,
(ii) every tagged mesh entity carries the label of one of the stack's layers
covering it, and (iii) every interface between two differently labelled layer
entities is additionally tagged `label1___label2`. -/
theorem to_gmsh_mesh_tags (layers : List MeshLayer) (p q : Int × Int)
    (ℓ : MeshLayer) (hmem : ℓ ∈ layers) (hcov : ℓ.covers p = true)
    (hgov : ∀ m ∈ layers, m.covers p = true → m ≠ ℓ →
      ℓ.mesh_order < m.mesh_order) :
    mesh_label layers p = some ℓ.label ∧
    (∀ r s, mesh_label layers r = some s →
        ∃ m ∈ layers, m.covers r = true ∧ m.label = s) ∧
    (∀ a b, mesh_label layers p = some a → mesh_label layers q = some b →
        a ≠ b → mesh_interface layers p q = some (interface_tag a b)) := by
  refine ⟨mesh_label_governing layers p ℓ hmem hcov hgov, ?_, ?_⟩
  · intro r s h
    unfold mesh_label at h
    rcases Option.map_eq_some'.mp h with ⟨m, hm, hlab⟩
    obtain ⟨h1, h2⟩ := mesh_governing_layer_mem layers r m hm
    exact ⟨m, h1, h2, hlab⟩
  · intro a b ha hb hne
    exact mesh_interface_eq layers p q a b ha hb hne

/-- C7 witness: in the two-layer demonstration stack, the point `(0, 0)` is
covered by both layers and tagged "core" (mesh order 1 beats 10), and the
interface toward the point `(1, 0)` (tagged "clad") is tagged "core___clad". -/
theorem to_gmsh_mesh_tags_witness :
    mesh_label demo_layers (0, 0) = some "core" ∧
      mesh_interface demo_layers (0, 0) (1, 0) = some (interface_tag "core" "clad") := by
  have hgov : ∀ m ∈ demo_layers, m.covers (0, 0) = true → m ≠ demo_core →
      demo_core.mesh_order < m.mesh_order := by
    intro m hm hc hne
    rcases List.mem_cons.mp hm with h1 | h2
    · exact absurd h1 hne
    · rcases List.mem_cons.mp h2 with h3 | h4
      · rw [h3]; decide
      · exact absurd h4 (List.not_mem_nil _)
  have h := to_gmsh_mesh_tags demo_layers (0, 0) (1, 0) demo_core
    (List.mem_cons_self _ _) rfl hgov
  exact ⟨h.1, h.2.2 "core" "clad" h.1 rfl (by decide)⟩

/-- When some row with the wanted id is in a table, the lookup by id succeeds
and returns a row of the table. -/
theorem find_row {α : Type} (rows : List α) (rowId : α → Nat) (id : Nat)
    (h : ∃ x ∈ rows, rowId x = id) :
    ∃ x, rows.find? (fun r => rowId r == id) = some x ∧ x ∈ rows := by
  have hs : (rows.find? (fun r => rowId r == id)).isSome := by
    rw [List.find?_isSome]
    obtain ⟨x, hx, hid⟩ := h
    exact ⟨x, hx, by simp [hid]⟩
  obtain ⟨x, hx⟩ := Option.isSome_iff_exists.mp hs
  exact ⟨x, hx, List.mem_of_find?_eq_some hx⟩

/-- C6: in the database schema, under referential integrity of the foreign
keys, every `Port` and every `ComponentInfo` row resolves through its parent
`Component`, that component's parent `Die`, that die's parent `Reticle`, up to
a stored parent `Wafer`: the models form the wafer-to-reticle-to-die-to-
component storage hierarchy, each link given by a foreign-key id resolved by
the relationship lookup. -/
theorem database_hierarchy (db : Database) (hdb : db.WF) :
    (∀ p ∈ db.ports, (db.port_wafer p).isSome) ∧
    (∀ i ∈ db.component_infos, (db.info_wafer i).isSome) := by
  obtain ⟨hret, hdie, hcomp, hport, hinfo⟩ := hdb
  constructor
  · intro p hp
    obtain ⟨c, hcfind, hcmem⟩ :=
      find_row db.components ComponentRow.id p.component_id (hport p hp)
    obtain ⟨d, hdfind, hdmem⟩ :=
      find_row db.dies DieRow.id c.die_id (hcomp c hcmem)
    obtain ⟨r, hrfind, hrmem⟩ :=
      find_row db.reticles ReticleRow.id d.reticle_id (hdie d hdmem)
    obtain ⟨w, hwfind, hwmem⟩ :=
      find_row db.wafers WaferRow.id r.wafer_id (hret r hrmem)
    simp [Database.port_wafer, Database.find_component, Database.find_die,
      Database.find_reticle, Database.find_wafer, hcfind, hdfind, hrfind, hwfind]
  · intro i hi
    obtain ⟨c, hcfind, hcmem⟩ :=
      find_row db.components ComponentRow.id i.component_id (hinfo i hi)
    obtain ⟨d, hdfind, hdmem⟩ :=
      find_row db.dies DieRow.id c.die_id (hcomp c hcmem)
    obtain ⟨r, hrfind, hrmem⟩ :=
      find_row db.reticles ReticleRow.id d.reticle_id (hdie d hdmem)
    obtain ⟨w, hwfind, hwmem⟩ :=
      find_row db.wafers WaferRow.id r.wafer_id (hret r hrmem)
    simp [Database.info_wafer, Database.find_component, Database.find_die,
      Database.find_reticle, Database.find_wafer, hcfind, hdfind, hrfind, hwfind]

/-- C6 witness: the hierarchy theorem on the notebook's example database,
applied to its port row and its component-info row. -/
theorem database_hierarchy_witness :
    (exampleDb.port_wafer ⟨1, "o1", "optical", 180, (0, 0), 1⟩).isSome = true ∧
    (exampleDb.info_wafer ⟨1, "radius", "10", 1⟩).isSome = true :=
  ⟨(database_hierarchy exampleDb (by unfold Database.WF; decide)).1 _ (by decide),
   (database_hierarchy exampleDb (by unfold Database.WF; decide)).2 _ (by decide)⟩

/-- C8 counterexample: at `wl = wl0 = 1`, `neff = ng = 1`, `ring_length = 0`,
`coupling = 0` and `loss = 0` — all inside the claim's stated ranges — the
round-trip factor equals `1`, so both the numerator and the denominator of
`out` vanish and the response is the indeterminate `0 / 0` rather than `1`
(the numpy code divides `0j` by `0j` and returns NaN there); in the
exact-arithmetic embedding, where division by zero yields `0`, the value is
`0`, not `1`. -/
theorem ring_lossless_claim_false : ring 1 1 1 1 0 0 0 ≠ 1 := by
  have hA : ring_amplitude 0 0 = 1 := by norm_num [ring_amplitude]
  have hP : ring_phase 1 1 1 1 0 = 1 := by simp [ring_phase]
  have hval : ring 1 1 1 1 0 0 0 = 0 := by
    simp [ring, hA, hP, Real.sqrt_one]
  rw [hval]
  norm_num

/-- C8 (amended): for every `wl > 0`, `wl0 > 0`, all real `neff` and `ng`,
every `ring_length ≥ 0` and every coupling with `0 < coupling ≤ 1`, the
lossless (`loss = 0`) all-pass ring has power transmission exactly `1` in
exact real arithmetic. The amendment excludes `coupling = 0`, where the
formula degenerates to `0 / 0` at resonance. -/
theorem ring_lossless_allpass (wl wl0 neff ng ring_length coupling : ℝ)
    (hwl : 0 < wl) (hwl0 : 0 < wl0) (hL : 0 ≤ ring_length)
    (hc0 : 0 < coupling) (hc1 : coupling ≤ 1) :
    ring wl wl0 neff ng ring_length coupling 0 = 1 := by
  have hA : ring_amplitude 0 ring_length = 1 := by norm_num [ring_amplitude]
  simp only [ring, hA, Complex.ofReal_one, one_mul, mul_one]
  set a : ℝ := Real.sqrt (1 - coupling) with ha
  set z : ℂ := ring_phase wl wl0 neff ng ring_length with hzdef
  have ha0 : 0 ≤ a := Real.sqrt_nonneg _
  have ha1 : a < 1 := by
    have h1 : Real.sqrt (1 - coupling) < Real.sqrt 1 :=
      Real.sqrt_lt_sqrt (by linarith) (by linarith)
    simpa [Real.sqrt_one] using h1
  have hz : Complex.abs z = 1 := by
    rw [hzdef]
    exact Complex.abs_exp_ofReal_mul_I _
  have hz2 : z.re * z.re + z.im * z.im = 1 := by
    have h := Complex.sq_abs z
    rw [hz, one_pow, Complex.normSq_apply] at h
    exact h.symm
  have habs : Complex.abs ((a : ℂ) * z) = a := by
    rw [map_mul, hz, mul_one, Complex.abs_ofReal, abs_of_nonneg ha0]
  have hden : (1 : ℂ) - (a : ℂ) * z ≠ 0 := by
    intro h
    have hone : (a : ℂ) * z = 1 := (sub_eq_zero.mp h).symm
    rw [hone, map_one] at habs
    linarith
  have hsq : Complex.normSq ((a : ℂ) - z) = Complex.normSq (1 - (a : ℂ) * z) := by
    simp only [Complex.normSq_apply, Complex.sub_re, Complex.sub_im, Complex.mul_re,
      Complex.mul_im, Complex.one_re, Complex.one_im, Complex.ofReal_re, Complex.ofReal_im]
    linear_combination (1 - a * a) * hz2
  have hnum : Complex.abs ((a : ℂ) - z) = Complex.abs (1 - (a : ℂ) * z) := by
    rw [Complex.abs_apply, Complex.abs_apply, hsq]
  have habsden : Complex.abs (1 - (a : ℂ) * z) ≠ 0 :=
    fun h => hden (Complex.abs.eq_zero.mp h)
  rw [map_div₀, hnum, div_self habsden, one_pow]

/-- C8 witness: the amended lossless all-pass theorem at the concrete input
`wl = wl0 = 1`, `neff = ng = 0`, `ring_length = 0`, `coupling = 1`. -/
theorem ring_lossless_allpass_witness :
    (0 : ℝ) < 1 ∧ (0 : ℝ) ≤ 0 ∧ (0 : ℝ) < 1 ∧ (1 : ℝ) ≤ 1 ∧
      ring 1 1 0 0 0 1 0 = 1 :=
  ⟨by norm_num, by norm_num, by norm_num, by norm_num,
    ring_lossless_allpass 1 1 0 0 0 1 (by norm_num) (by norm_num) (by norm_num)
      (by norm_num) (by norm_num)⟩

/-- C9: inserting references to two distinct manually-named components that
carry the same explicit name (the notebook's two `gf.Component("wg")` cells
with straights of length 5 and 50) into a parent raises the duplicated cell
name ValueError. -/
theorem duplicated_cell_name_error (c1 c2 : NamedComponent)
    (hname : c1.name = c2.name) (hne : c1 ≠ c2) :
    (insert_reference [] c1).bind (fun cells => insert_reference cells c2) =
      .error "Duplicated cell name" := by
  have hfind : List.find? (fun c0 => c0.name == c2.name) [c1] = some c1 :=
    List.find?_cons_of_pos _ (by simp [hname])
  have h2 : insert_reference [c1] c2 = .error "Duplicated cell name" := by
    simp [insert_reference, hfind, hne]
  exact h2

/-- C9 witness: the duplicated-name theorem at the notebook's concrete
components, both named "wg", containing straights of length 5 and 50. -/
theorem duplicated_cell_name_error_witness :
    (insert_reference [] ⟨"wg", 5⟩).bind
        (fun cells => insert_reference cells ⟨"wg", 50⟩) =
      .error "Duplicated cell name" :=
  duplicated_cell_name_error ⟨"wg", 5⟩ ⟨"wg", 50⟩ rfl (by decide)

/-- Every component of one unnamed-creation run has a uuid name drawn at or
after the starting supply. -/
theorem mem_new_unnamed_run (n : Nat) :
    ∀ supply c, c ∈ new_unnamed_run n supply →
      ∃ u, supply ≤ u ∧ c.name = .unnamed u := by
  induction n with
  | zero =>
      intro s c h
      simp [new_unnamed_run] at h
  | succ n ih =>
      intro s c h
      rcases List.mem_cons.mp h with h1 | h2
      · exact ⟨s, le_refl s, by rw [h1]; rfl⟩
      · obtain ⟨u, hu, hname⟩ := ih (s + 1) c h2
        exact ⟨u, by omega, hname⟩

/-- The names of one unnamed-creation run are pairwise distinct. -/
theorem new_unnamed_run_nodup (n : Nat) :
    ∀ supply, ((new_unnamed_run n supply).map UnnamedComponent.name).Nodup := by
  induction n with
  | zero => intro s; simp [new_unnamed_run]
  | succ n ih =>
      intro s
      refine List.nodup_cons.mpr ⟨?_, ih (s + 1)⟩
      intro hmem
      rcases List.mem_map.mp hmem with ⟨c, hc, hname⟩
      obtain ⟨u, hu, hn2⟩ := mem_new_unnamed_run n (s + 1) c hc
      rw [hn2] at hname
      have : u = s := by
        have h' : GdsName.unnamed u = GdsName.unnamed s := hname
        injection h'
      omega

/-- C10: every `gf.Component` created without an explicit name receives a
fresh uuid-based name, so any two components of such a creation run have
distinct names; and calling `write_gds` on an Unnamed component raises a
Warning but still writes the GDS file. -/
theorem unnamed_components_unique_and_written (n supply : Nat) :
    ((new_unnamed_run n supply).map UnnamedComponent.name).Nodup ∧
    (∀ c : UnnamedComponent, ∀ u, c.name = .unnamed u →
      (write_gds c).warned = true ∧ (write_gds c).gds_written = true) := by
  refine ⟨new_unnamed_run_nodup n supply, ?_⟩
  intro c u hu
  cases c with
  | mk name => cases name with
    | manual s => exact absurd hu (by simp)
    | unnamed v => exact ⟨rfl, rfl⟩

/-- C10 witness: a run creating two unnamed components from uuid supply 0 has
distinct names, and writing the first warns yet writes the file. -/
theorem unnamed_components_unique_and_written_witness :
    ((new_unnamed_run 2 0).map UnnamedComponent.name).Nodup ∧
      (write_gds ⟨.unnamed 0⟩).warned = true ∧
      (write_gds ⟨.unnamed 0⟩).gds_written = true :=
  ⟨(unnamed_components_unique_and_written 2 0).1,
   (unnamed_components_unique_and_written 2 0).2 ⟨.unnamed 0⟩ 0 rfl⟩

end GdsFactory
